import Mathlib

/-!
Shallow embedding of the organization-management service layer
(`app/services.py`, with `app/utils.py` for `slugify`) of the
multi-tenant organization manager.

Modelling conventions:
- A tenant document is abstracted to its payload (`Doc := Nat`); the
  `_id` field that the copy loops strip before reinsertion is not
  modelled, since no claim depends on object identity of documents.
- A Mongo database is an association list from collection names to
  document lists.  Reading a missing collection yields the empty list
  (as `count_documents`/`find` do); `insert_many` creates the
  collection, and the code never calls `insert_many` with an empty
  batch, so `insertMany` on `[]` is the identity.
- Network nondeterminism (a batch `insert_many` raising, the liveness
  `ping` failing) is passed in as explicit boolean oracles.
- `renameCollection` (`dropTarget=False`) fails with `OperationFailure`
  exactly when the source namespace does not exist or the target name
  already exists; this is the storage-layer failure the fallback path
  of `update_organization` catches.
-/

/-- A tenant document, abstracted to its payload. -/
abbrev Doc := Nat

/-- A physical database: an association list from collection names to the
documents they hold. -/
abbrev Database := List (String × List Doc)

/-- Documents of a collection; a missing collection reads as empty, exactly
as `count_documents({})` and `find({})` behave on a missing collection. -/
def getColl (db : Database) (name : String) : List Doc :=
  match db.lookup name with
  | some docs => docs
  | none => []

/-- Whether a collection exists in the database (is listed by
`list_collection_names`). -/
def collExists (db : Database) (name : String) : Bool :=
  (db.lookup name).isSome

/-- Replace the contents of a collection, creating it if absent. -/
def setColl (db : Database) (name : String) (docs : List Doc) : Database :=
  match db with
  | [] => [(name, docs)]
  | (k, v) :: rest =>
    if k = name then (k, docs) :: rest else (k, v) :: setColl rest name docs

/-- Drop a collection; a no-op when it does not exist, as
`drop_collection` is. -/
def dropColl (db : Database) (name : String) : Database :=
  db.filter (fun p => p.1 ≠ name)

/-- Model of `insert_many`: appends the documents, creating the collection
when it is missing.  The service never issues an empty `insert_many`
(buffers are only flushed when non-empty), so the empty case is the
identity. -/
def insertMany (db : Database) (name : String) (docs : List Doc) : Database :=
  match docs with
  | [] => db
  | _ => setColl db name (getColl db name ++ docs)

/-- The sentinel trick of `create_organization`: `insert_one({"_init": ...})`
followed by `delete_many({"_init": ...})` materializes the collection and
leaves any pre-existing documents alone. -/
def ensureColl (db : Database) (name : String) : Database :=
  if collExists db name then db else setColl db name []

/-- Python truthiness of an optional string argument (`if db_uri and db_name`):
`None` and the empty string are falsy. -/
def truthy : Option String → Bool
  | none => false
  | some s => s != ""

/-- Characters the slug keeps: ASCII lowercase letters and digits
(the regex class `[a-z0-9]` of `app/utils.py`). -/
def isSlugKeep (c : Char) : Bool :=
  (97 ≤ c.toNat && c.toNat ≤ 122) || (48 ≤ c.toNat && c.toNat ≤ 57)

/-- One `re.sub` pass of `slugify`: every maximal run of characters outside
`[a-z0-9]` becomes a single underscore.  The flag records whether the
previous character was part of such a run (so the run emits only one
underscore). -/
def squashAux : Bool → List Char → List Char
  | _, [] => []
  | inRun, c :: rest =>
    if isSlugKeep c then c :: squashAux false rest
    else if inRun then squashAux true rest
    else '_' :: squashAux true rest

/-- `re.sub(r'[^a-z0-9]+', '_', s)`. -/
def squashNonAlnum (l : List Char) : List Char :=
  squashAux false l

/-- Python `str.strip`: drop the characters satisfying `p` from both ends. -/
def pyStrip (l : List Char) (p : Char → Bool) : List Char :=
  ((l.dropWhile p).reverse.dropWhile p).reverse

/-- `app/utils.py` `slugify`: lowercase, strip whitespace, collapse each run
of non-alphanumeric characters to one underscore, trim underscores.
`Char.toLower` matches Python `str.lower` on the ASCII names exercised
here. -/
def slugify (name : String) : String :=
  let s := name.data.map Char.toLower
  let s := pyStrip s (fun c => c.isWhitespace)
  let s := squashNonAlnum s
  let s := pyStrip s (fun c => c == '_')
  String.mk s

/-- Stand-in for the external credential-hashing collaborator
(`app/auth.py` `hash_password`); the service treats the hash as opaque
text and no claim inspects it. -/
def hash_password (password : String) : String :=
  "bcrypt$" ++ password

example : slugify "Acme Inc." = "acme_inc" := by decide
example : slugify "  A  B  " = "a_b" := by decide

/-- An organization document as stored in `master_db["organizations"]`.
The nested dicts are flattened into optional fields: `connection_details`
is the pair `connection_details_db_uri` / `connection_details_db_name`
(absent key modelled as `none`), and `admin` contributes `admin_email` and
`admin_password_hash`.  `id` models the Mongo `_id`. -/
structure OrgDoc where
  id : Nat
  organization_name : String
  collection_name : String
  db_type : Option String
  db_name : Option String
  connection_details_db_uri : Option String
  connection_details_db_name : Option String
  admin_email : String
  admin_password_hash : String
deriving DecidableEq, Repr

/-- State of `DatabaseConnectionManager`: `tenant_clients` maps a cache key
to the client created for it.  A client is modelled by the identity
`clientId` (a fresh number per construction, so identity-equality of
handles is equality of ids) together with the URI it was constructed
with. -/
structure DatabaseConnectionManager where
  tenant_clients : List (String × Nat × String)
  next_client_id : Nat
deriving DecidableEq, Repr

/-- The database handle `get_tenant_db` returns: either a database on a
cached dedicated client (identified by the client id and the URI that
client was built from) or a database on the shared default client. -/
inductive TenantDb where
  | dedicated (clientId : Nat) (clientUri : String) (dbName : String)
  | shared (dbName : String)
deriving DecidableEq, Repr

/-- `DatabaseConnectionManager.get_tenant_db` (`app/services.py` 41-79):
for a `"dedicated"` record with truthy `connection_details.db_uri` and
`.db_name`, return the cached client's database, creating and caching the
client on first access (cache key `f"{db_uri}_{db_name}"`); in every
other case fall through to the shared default client, on the database
named by the record's top-level `db_name` (default `"master_db"`). -/
def get_tenant_db (mgr : DatabaseConnectionManager) (org_doc : OrgDoc) :
    TenantDb × DatabaseConnectionManager :=
  let db_type := org_doc.db_type.getD "shared"
  if db_type = "dedicated" then
    let db_uri := org_doc.connection_details_db_uri
    let db_name := org_doc.connection_details_db_name
    if truthy db_uri && truthy db_name then
      let uri := db_uri.getD ""
      let name := db_name.getD ""
      let cache_key := uri ++ "_" ++ name
      match mgr.tenant_clients.lookup cache_key with
      | some (cid, curi) => (TenantDb.dedicated cid curi name, mgr)
      | none =>
        (TenantDb.dedicated mgr.next_client_id uri name,
         ⟨mgr.tenant_clients ++ [(cache_key, mgr.next_client_id, uri)],
          mgr.next_client_id + 1⟩)
    else (TenantDb.shared (org_doc.db_name.getD "master_db"), mgr)
  else (TenantDb.shared (org_doc.db_name.getD "master_db"), mgr)

/-- Observable outcome of `DatabaseConnectionManager.test_connection`:
what the coroutine returns (`none` would mean an exception escaped) and
whether `close()` was called on the short-lived client. -/
structure TestConnectionResult where
  returned : Option Bool
  close_called : Bool
deriving DecidableEq, Repr

/-- `DatabaseConnectionManager.test_connection` (`app/services.py` 81-107).
`ping_ok` is the oracle for the try block succeeding (client construction
and the `ping` command); on success the client is closed and `True`
returned, on any exception the handler logs and returns `False` — the
`close()` call standing before `return True` inside the `try` is never
reached on the failure path. -/
def test_connection (ping_ok : Bool) : TestConnectionResult :=
  if ping_ok then ⟨some true, true⟩
  else ⟨some false, false⟩

/-- The fixed batch size of `MigrationService` (`self.batch_size = 1000`,
`app/services.py` 148). -/
def MigrationService.batch_size : Nat := 1000

/-- The local batch size of
`OrganizationService._copy_collection_documents` (`batch_size = 500`,
`app/services.py` 721). -/
def OrganizationService.copy_batch_size : Nat := 500

/-- The buffered streaming loop of
`MigrationService.migrate_collection_with_progress`: documents are
appended to a buffer which is flushed as one `insert_many` per
`batch_size` documents, a failed flush counts the whole batch into the
failed tally and the loop continues, and the remainder buffer is flushed
at the end.  `batch_fail i` is the oracle for the `i`-th flush raising.
Returns `(migrated_docs, failed_docs, documents actually inserted)`. -/
def migrateLoop (batch_fail : Nat → Bool) (batch_size : Nat) :
    List Doc → List Doc → Nat → Nat × Nat × List Doc
  | [], buffer, i =>
    match buffer with
    | [] => (0, 0, [])
    | _ => if batch_fail i then (0, buffer.length, []) else (buffer.length, 0, buffer)
  | d :: rest, buffer, i =>
    let buffer' := buffer ++ [d]
    if batch_size ≤ buffer'.length then
      if batch_fail i then
        let r := migrateLoop batch_fail batch_size rest [] (i + 1)
        (r.1, buffer'.length + r.2.1, r.2.2)
      else
        let r := migrateLoop batch_fail batch_size rest [] (i + 1)
        (buffer'.length + r.1, r.2.1, buffer' ++ r.2.2)
    else migrateLoop batch_fail batch_size rest buffer' i

/-- The statistics dictionary `migrate_collection_with_progress` returns
(`success_rate`, a float derived from the other three fields, is not
modelled). -/
structure MigrationStats where
  total_documents : Nat
  migrated_documents : Nat
  failed_documents : Nat
deriving DecidableEq, Repr

/-- `MigrationService.migrate_collection_with_progress`
(`app/services.py` 151-250): counts the source documents, streams them
through the buffered batch loop into the target collection, and returns
the statistics together with the database after the inserts.  The source
collection is left in place — dropping it is the caller's business. -/
def migrate_collection_with_progress (source_db : Database)
    (source_collection target_collection : String)
    (batch_fail : Nat → Bool) : MigrationStats × Database :=
  let docs := getColl source_db source_collection
  let total_docs := docs.length
  let r := migrateLoop batch_fail MigrationService.batch_size docs [] 0
  (⟨total_docs, r.1, r.2.1⟩, insertMany source_db target_collection r.2.2)

/-- The spec's `MigrationJob` status values. -/
inductive JobStatus where
  | running
  | completed
  | completed_with_failures
deriving DecidableEq, Repr

/-- Modelled from the spec: the `MigrationJob` result status — the code
returns only the raw statistics dictionary, and the spec defines the
job's final status as `completed` iff `failed_count == 0`, else
`completed_with_failures`. -/
def jobStatus (stats : MigrationStats) : JobStatus :=
  if stats.failed_documents = 0 then JobStatus.completed
  else JobStatus.completed_with_failures

/-- The buffered copy loop of
`OrganizationService._copy_collection_documents`: same buffering as the
migration loop but with no failure handling — every `insert_many` is
assumed to succeed (an exception there would propagate out of the whole
update, a path no claim exercises).  Returns `(doc_count, inserted)`. -/
def copyLoop (batch_size : Nat) : List Doc → List Doc → Nat × List Doc
  | [], buffer => (buffer.length, buffer)
  | d :: rest, buffer =>
    let buffer' := buffer ++ [d]
    if batch_size ≤ buffer'.length then
      let r := copyLoop batch_size rest []
      (buffer'.length + r.1, buffer' ++ r.2)
    else copyLoop batch_size rest buffer'

/-- `OrganizationService._copy_collection_documents`
(`app/services.py` 702-743): buffered copy of all source documents into
the target collection, batch size 500. -/
def copy_collection_documents (db : Database)
    (source_collection target_collection : String) : Database :=
  let docs := getColl db source_collection
  let r := copyLoop OrganizationService.copy_batch_size docs []
  insertMany db target_collection r.2

/-- The `renameCollection` admin command with `dropTarget=False`
(`app/services.py` 579-584): fails with `OperationFailure` (`none`) when
the source namespace does not exist or the target name already exists;
otherwise moves the collection to the new name. -/
def renameColl (db : Database) (src tgt : String) : Option Database :=
  if collExists db src = false then none
  else if collExists db tgt then none
  else some (setColl (dropColl db src) tgt (getColl db src))

/-- Which branch of the collection-rename block of `update_organization`
ran; each value corresponds to exactly one log event of the source
(`collection_renamed_atomically`, `atomic_rename_failed_using_fallback`,
`using_background_migration_for_large_dataset`,
`collection_migrated_cross_database`). -/
inductive RenamePath where
  | atomic_rename
  | rename_fallback_copy
  | large_migration
  | cross_db_copy
deriving DecidableEq, Repr

/-- Result of the collection-rename block: the branch taken, the database
afterwards, and the migration statistics when the large-dataset branch
produced them. -/
structure RenameStepResult where
  path : RenamePath
  db : Database
  stats : Option MigrationStats
deriving DecidableEq, Repr

/-- The collection-rename block of `OrganizationService.update_organization`
(`app/services.py` 561-628).  `same_db` is the code's own test
`doc.get("db_type", "shared") == "shared"`; both the old and the new
collection name always refer to `current_db`.  Strategy: atomic rename
for `same_db` and fewer than 10,000 documents, falling back to
copy-then-drop when the rename raises `OperationFailure`; batched
migration with statistics then drop for 10,000 documents or more;
copy-then-drop otherwise. -/
def rename_collection_step (current_db : Database) (same_db : Bool)
    (old_collection_name new_collection_name : String)
    (batch_fail : Nat → Bool) : RenameStepResult :=
  let doc_count := (getColl current_db old_collection_name).length
  if same_db && decide (doc_count < 10000) then
    match renameColl current_db old_collection_name new_collection_name with
    | some db' => ⟨RenamePath.atomic_rename, db', none⟩
    | none =>
      let db1 := copy_collection_documents current_db old_collection_name
        new_collection_name
      ⟨RenamePath.rename_fallback_copy, dropColl db1 old_collection_name, none⟩
  else if 10000 ≤ doc_count then
    let r := migrate_collection_with_progress current_db old_collection_name
      new_collection_name batch_fail
    ⟨RenamePath.large_migration, dropColl r.2 old_collection_name, some r.1⟩
  else
    let db1 := copy_collection_documents current_db old_collection_name
      new_collection_name
    ⟨RenamePath.cross_db_copy, dropColl db1 old_collection_name, none⟩

/-- Replace (or add) the value of a key in an association list. -/
def setAssoc {α β : Type} [DecidableEq α] : List (α × β) → α → β → List (α × β)
  | [], k, v => [(k, v)]
  | (k', v') :: rest, k, v =>
    if k' = k then (k, v) :: rest else (k', v') :: setAssoc rest k v

/-- The world the service operates on: the `organizations` metadata
collection of `master_db` (typed as `OrgDoc` records), the databases
reachable through the shared default client (by database name —
`master_db` holds the shared tenant collections), the databases of
dedicated deployments (keyed by connection URI and database name), and
the connection manager's cache. -/
structure SystemState where
  organizations : List OrgDoc
  sharedDbs : List (String × Database)
  dedicatedDbs : List ((String × String) × Database)
  mgr : DatabaseConnectionManager
deriving DecidableEq, Repr

/-- The physical database a `get_tenant_db` handle talks to.  A dedicated
handle reaches the database named at lookup time on the cluster the
cached client was constructed for. -/
def physicalDb (st : SystemState) : TenantDb → Database
  | TenantDb.shared n => (st.sharedDbs.lookup n).getD []
  | TenantDb.dedicated _ curi n => (st.dedicatedDbs.lookup (curi, n)).getD []

/-- Write back the physical database a handle talks to. -/
def setPhysicalDb (st : SystemState) : TenantDb → Database → SystemState
  | TenantDb.shared n, db => { st with sharedDbs := setAssoc st.sharedDbs n db }
  | TenantDb.dedicated _ curi n, db =>
    { st with dedicatedDbs := setAssoc st.dedicatedDbs (curi, n) db }

/-- `find_one({"organization_name": name})` on the metadata collection. -/
def findOrg (orgs : List OrgDoc) (name : String) : Option OrgDoc :=
  orgs.find? (fun r => r.organization_name == name)

/-- `OrganizationService.organization_exists` (`app/services.py` 303-315):
a `find_one` on the name returned a document. -/
def organization_exists (st : SystemState) (name : String) : Bool :=
  (findOrg st.organizations name).isSome

/-- A fresh `_id` for an inserted metadata document: distinct from every
id already in the collection. -/
def freshId (orgs : List OrgDoc) : Nat :=
  (orgs.map (fun r => r.id)).foldr max 0 + 1

/-- The typed errors (`ValueError` reasons) `create_organization` raises. -/
inductive CreateError where
  | connection_failed
  | init_failed
  | duplicate (field : String)
deriving DecidableEq, Repr

/-- Outcome of `create_organization`: the raised error, if any, and the
world afterwards (Python mutates the databases before raising, so the
state is reported alongside the error). -/
structure CreateResult where
  error : Option CreateError
  state : SystemState
deriving DecidableEq, Repr

/-- The `insert_one(org_metadata)` step of `create_organization` together
with its `DuplicateKeyError` handler (`app/services.py` 437-477): the
insert conflicts when an existing record holds the same name or the same
admin email (the two unique indexes); on conflict the cleanup drops the
tenant collection only when `org_metadata["db_type"] == "shared"`, and
the error names the colliding field (the name index, created first, is
reported in preference to the email index). -/
def insertOrgMetadata (st : SystemState) (rcd : OrgDoc)
    (collection_name : String) : CreateResult :=
  let nameClash := st.organizations.any
    (fun r => r.organization_name == rcd.organization_name)
  let emailClash := st.organizations.any
    (fun r => r.admin_email == rcd.admin_email)
  if nameClash || emailClash then
    let st' :=
      if rcd.db_type == some "shared" then
        { st with sharedDbs := (setAssoc st.sharedDbs "master_db"
            (dropColl ((st.sharedDbs.lookup "master_db").getD []) collection_name)) }
      else st
    if nameClash then ⟨some (CreateError.duplicate "organization_name"), st'⟩
    else ⟨some (CreateError.duplicate "admin.email"), st'⟩
  else ⟨none, { st with organizations := st.organizations ++ [rcd] }⟩

/-- `OrganizationService.create_organization` (`app/services.py` 317-477).
Dedicated mode (both `db_uri` and `db_name` truthy): probe the connection
(`ping_ok`), initialize the tenant collection on the dedicated database
through a throwaway client (`init_ok` is the oracle for that try block),
then insert the metadata.  Shared mode: initialize the tenant collection
in `master_db`, then insert the metadata.  The sentinel insert/delete
pair materializes the collection and leaves existing documents alone. -/
def create_organization (st : SystemState)
    (org_name admin_email admin_password : String)
    (db_uri db_name : Option String) (ping_ok init_ok : Bool) : CreateResult :=
  let collection_name := "org_" ++ slugify org_name
  if truthy db_uri && truthy db_name then
    let uri := db_uri.getD ""
    let dname := db_name.getD ""
    if !ping_ok then ⟨some CreateError.connection_failed, st⟩
    else if !init_ok then ⟨some CreateError.init_failed, st⟩
    else
      let st1 := { st with dedicatedDbs := (setAssoc st.dedicatedDbs (uri, dname)
        (ensureColl ((st.dedicatedDbs.lookup (uri, dname)).getD []) collection_name)) }
      insertOrgMetadata st1
        ⟨freshId st.organizations, org_name, collection_name, some "dedicated",
         some dname, some uri, some dname, admin_email,
         hash_password admin_password⟩
        collection_name
  else
    let st1 := { st with sharedDbs := (setAssoc st.sharedDbs "master_db"
      (ensureColl ((st.sharedDbs.lookup "master_db").getD []) collection_name)) }
    insertOrgMetadata st1
      ⟨freshId st.organizations, org_name, collection_name, some "shared",
       some "master_db", none, none, admin_email, hash_password admin_password⟩
      collection_name

/-- `find_one_and_delete` on the name: remove the first matching record. -/
def eraseFirstOrg : List OrgDoc → String → List OrgDoc
  | [], _ => []
  | r :: rest, name =>
    if r.organization_name == name then rest else r :: eraseFirstOrg rest name

/-- `OrganizationService.delete_organization` (`app/services.py` 745-791):
remove the metadata record first, then best-effort drop the tenant
collection — from `master_db` for shared records, from the database
`get_tenant_db` resolves for dedicated ones.  Returns whether a record
was found. -/
def delete_organization (st : SystemState) (org_name : String) :
    Bool × SystemState :=
  match findOrg st.organizations org_name with
  | none => (false, st)
  | some doc =>
    let st1 := { st with organizations := eraseFirstOrg st.organizations org_name }
    let colname := doc.collection_name
    if doc.db_type.getD "shared" = "shared" then
      (true, { st1 with sharedDbs := (setAssoc st1.sharedDbs "master_db"
        (dropColl ((st1.sharedDbs.lookup "master_db").getD []) colname)) })
    else
      let p := get_tenant_db st1.mgr doc
      let st2 := { st1 with mgr := p.2 }
      (true, setPhysicalDb st2 p.1 (dropColl (physicalDb st2 p.1) colname))

/-- The `updates` dictionary `update_organization` accumulates before its
final `update_one` (the nested `admin` and `connection_details` dicts are
flattened to the fields their presence would change; `updated_at` is not
modelled). -/
structure Updates where
  organization_name : Option String := none
  collection_name : Option String := none
  admin_email : Option String := none
  admin_password_hash : Option String := none
  db_type : Option String := none
  db_name : Option String := none
  connection_details_db_uri : Option String := none
  connection_details_db_name : Option String := none
deriving DecidableEq, Repr

/-- Python `if updates:` — the accumulated dictionary is non-empty. -/
def Updates.nonempty (u : Updates) : Bool :=
  u.organization_name.isSome || u.collection_name.isSome ||
  u.admin_email.isSome || u.admin_password_hash.isSome ||
  u.db_type.isSome || u.db_name.isSome ||
  u.connection_details_db_uri.isSome || u.connection_details_db_name.isSome

/-- Apply the `$set` of the final `update_one` to the record. -/
def applyUpdates (r : OrgDoc) (u : Updates) : OrgDoc :=
  { r with
    organization_name := u.organization_name.getD r.organization_name,
    collection_name := u.collection_name.getD r.collection_name,
    admin_email := u.admin_email.getD r.admin_email,
    admin_password_hash := u.admin_password_hash.getD r.admin_password_hash,
    db_type := u.db_type.orElse (fun _ => r.db_type),
    db_name := u.db_name.orElse (fun _ => r.db_name),
    connection_details_db_uri :=
      u.connection_details_db_uri.orElse (fun _ => r.connection_details_db_uri),
    connection_details_db_name :=
      u.connection_details_db_name.orElse (fun _ => r.connection_details_db_name) }

/-- The unique indexes checked by the final `update_one`: a
`DuplicateKeyError` is raised when the `$set` gives this record a
`organization_name` or `admin.email` some other record already holds. -/
def directoryUpdateConflict (orgs : List OrgDoc) (docId : Nat) (u : Updates) : Bool :=
  (match u.organization_name with
   | some n => orgs.any (fun r => (r.id != docId) && r.organization_name == n)
   | none => false)
  ||
  (match u.admin_email with
   | some e => orgs.any (fun r => (r.id != docId) && r.admin_email == e)
   | none => false)

/-- The typed errors (`ValueError` reasons) `update_organization` raises.
`duplicate_name` is the single message the `DuplicateKeyError` handler of
the final `update_one` produces. -/
inductive UpdateError where
  | not_found
  | connection_failed
  | duplicate_name
deriving DecidableEq, Repr

/-- Outcome of `update_organization`: the raised error, if any, the world
afterwards (Python mutates the physical databases before the final
metadata write, so the state is reported alongside the error), and which
rename branch ran — observable in the source through the branch's log
event. -/
structure UpdateResult where
  error : Option UpdateError
  state : SystemState
  rename_path : Option RenamePath
deriving DecidableEq, Repr

/-- The final `update_one` of `update_organization` with its
`DuplicateKeyError` handler (`app/services.py` 668-700): a no-op success
when no update accumulated; otherwise apply the `$set` to the record, or
raise `ValueError` (leaving the directory untouched) when a unique index
is violated. -/
def finalizeUpdate (st : SystemState) (doc : OrgDoc) (path : Option RenamePath)
    (u : Updates) : UpdateResult :=
  if u.nonempty then
    if directoryUpdateConflict st.organizations doc.id u then
      ⟨some UpdateError.duplicate_name, st, path⟩
    else
      ⟨none, { st with organizations := (st.organizations.map
          (fun r => if r.id == doc.id then applyUpdates r u else r)) }, path⟩
  else ⟨none, st, path⟩

/-- `OrganizationService.update_organization` (`app/services.py` 509-700).
Load the record (`not_found` when absent); resolve `current_db` through
the connection manager; run the collection-rename block when a different
truthy new name is given; accumulate admin updates; for connection
updates, test the new URI first (`ping_ok`) and raise before touching the
metadata when it fails; finally apply the accumulated updates through
`update_one`.  The physical rename work precedes the metadata write. -/
def update_organization (st : SystemState) (org_name : String)
    (new_org_name email password db_uri db_name : Option String)
    (batch_fail : Nat → Bool) (ping_ok : Bool) : UpdateResult :=
  match findOrg st.organizations org_name with
  | none => ⟨some UpdateError.not_found, st, none⟩
  | some doc =>
    let p := get_tenant_db st.mgr doc
    let tdb := p.1
    let st1 : SystemState := { st with mgr := p.2 }
    let renameStage : Option RenamePath × SystemState × Updates :=
      if truthy new_org_name && (new_org_name.getD "" != org_name) then
        let newName := new_org_name.getD ""
        let new_collection_name := "org_" ++ slugify newName
        let old_collection_name := doc.collection_name
        let same_db := doc.db_type.getD "shared" == "shared"
        let step := rename_collection_step (physicalDb st1 tdb) same_db
          old_collection_name new_collection_name batch_fail
        (some step.path, setPhysicalDb st1 tdb step.db,
         { organization_name := some newName,
           collection_name := some new_collection_name })
      else (none, st1, {})
    let st2 := renameStage.2.1
    let u1 := renameStage.2.2
    let u2 :=
      if truthy email || truthy password then
        let ua := if truthy email then { u1 with admin_email := email } else u1
        if truthy password then
          { ua with admin_password_hash := some (hash_password (password.getD "")) }
        else ua
      else u1
    if truthy db_uri || truthy db_name then
      if truthy db_uri && !ping_ok then
        ⟨some UpdateError.connection_failed, st2, renameStage.1⟩
      else
        let ub :=
          if truthy db_uri then
            { u2 with connection_details_db_uri := db_uri,
                      db_type := some "dedicated" }
          else u2
        let uc :=
          if truthy db_name then
            { ub with connection_details_db_name := db_name, db_name := db_name }
          else ub
        finalizeUpdate st2 doc renameStage.1 uc
    else finalizeUpdate st2 doc renameStage.1 u2

/-- The rename-block outcome `update_organization` computes for a given
record and new name: the step runs on the database `get_tenant_db`
resolves for the record, with the code's `same_db` test. -/
def renameOutcome (st : SystemState) (doc : OrgDoc) (newName : String)
    (bf : Nat → Bool) : RenameStepResult :=
  rename_collection_step (physicalDb st (get_tenant_db st.mgr doc).1)
    (doc.db_type.getD "shared" == "shared") doc.collection_name
    ("org_" ++ slugify newName) bf

/-! Helper lemmas about the database model. -/

theorem lookup_setColl_self (db : Database) (n : String) (docs : List Doc) :
    (setColl db n docs).lookup n = some docs := by
  induction db with
  | nil => simp [setColl]
  | cons p rest ih =>
    obtain ⟨k, v⟩ := p
    by_cases h : k = n
    · simp [setColl, h]
    · simp [setColl, h, List.lookup, beq_false_of_ne (Ne.symm h), ih]

theorem lookup_setColl_ne (db : Database) (n m : String) (docs : List Doc)
    (h : m ≠ n) : (setColl db n docs).lookup m = db.lookup m := by
  induction db with
  | nil => simp [setColl, List.lookup, beq_false_of_ne h]
  | cons p rest ih =>
    obtain ⟨k, v⟩ := p
    by_cases hk : k = n
    · subst hk
      simp [setColl, List.lookup, beq_false_of_ne h,
        beq_false_of_ne (Ne.symm (by simpa using h))]
    · simp [setColl, hk, List.lookup, ih]

theorem lookup_dropColl_self (db : Database) (n : String) :
    (dropColl db n).lookup n = none := by
  induction db with
  | nil => simp [dropColl]
  | cons p rest ih =>
    obtain ⟨k, v⟩ := p
    by_cases h : k = n
    · simpa [dropColl, h] using ih
    · simpa [dropColl, h, List.lookup, beq_false_of_ne (Ne.symm h)] using ih

theorem lookup_dropColl_ne (db : Database) (n m : String) (h : m ≠ n) :
    (dropColl db n).lookup m = db.lookup m := by
  induction db with
  | nil => simp [dropColl]
  | cons p rest ih =>
    obtain ⟨k, v⟩ := p
    by_cases hk : k = n
    · subst hk
      simpa [dropColl, List.lookup, beq_false_of_ne h] using ih
    · by_cases hm : k = m
      · subst hm
        simp [dropColl, hk, List.lookup]
      · simpa [dropColl, hk, List.lookup, beq_false_of_ne (Ne.symm hm)] using ih

theorem collExists_dropColl_self (db : Database) (n : String) :
    collExists (dropColl db n) n = false := by
  simp [collExists, lookup_dropColl_self]

theorem getColl_setColl_self (db : Database) (n : String) (docs : List Doc) :
    getColl (setColl db n docs) n = docs := by
  simp [getColl, lookup_setColl_self]

theorem lookup_setAssoc_self {α β : Type} [DecidableEq α] [BEq α] [LawfulBEq α]
    (l : List (α × β)) (k : α) (v : β) : (setAssoc l k v).lookup k = some v := by
  induction l with
  | nil => simp [setAssoc]
  | cons p rest ih =>
    obtain ⟨k', v'⟩ := p
    by_cases h : k' = k
    · simp [setAssoc, h]
    · simp [setAssoc, h, List.lookup, beq_false_of_ne (Ne.symm h), ih]

theorem lookup_append_single_of_none {α β : Type} [BEq α] [LawfulBEq α]
    (l : List (α × β)) (k : α) (v : β) (h : l.lookup k = none) :
    (l ++ [(k, v)]).lookup k = some v := by
  induction l with
  | nil => simp [List.lookup]
  | cons p rest ih =>
    obtain ⟨k', v'⟩ := p
    by_cases hk : (k == k') = true
    · simp only [List.lookup, hk] at h
      exact absurd h (by simp)
    · have hk' : (k == k') = false := by simpa using hk
      simp only [List.lookup, hk'] at h ⊢
      exact ih h

theorem migrateLoop_conservation (bf : Nat → Bool) (bs : Nat) :
    ∀ (l buffer : List Doc) (i : Nat),
      (migrateLoop bf bs l buffer i).1 + (migrateLoop bf bs l buffer i).2.1
        = l.length + buffer.length := by
  intro l
  induction l with
  | nil =>
    intro buffer i
    cases buffer with
    | nil => simp [migrateLoop]
    | cons d rest =>
      simp only [migrateLoop]
      split <;> simp
  | cons d rest ih =>
    intro buffer i
    simp only [migrateLoop]
    split
    · split
      · have := ih [] (i + 1)
        simp only [List.length_nil, Nat.add_zero] at this
        simp [List.length_append]
        omega
      · have := ih [] (i + 1)
        simp only [List.length_nil, Nat.add_zero] at this
        simp [List.length_append]
        omega
    · have := ih (buffer ++ [d]) i
      simp only [List.length_append, List.length_cons, List.length_nil] at this ⊢
      omega

theorem copyLoop_spec (bs : Nat) :
    ∀ (l buffer : List Doc),
      copyLoop bs l buffer = (buffer.length + l.length, buffer ++ l) := by
  intro l
  induction l with
  | nil => intro buffer; simp [copyLoop]
  | cons d rest ih =>
    intro buffer
    simp only [copyLoop]
    split
    · rw [ih []]
      simp [List.length_append, List.append_assoc]
      omega
    · rw [ih (buffer ++ [d])]
      simp [List.length_append, List.append_assoc]
      omega

theorem getColl_insertMany_self (db : Database) (n : String) (docs : List Doc) :
    getColl (insertMany db n docs) n = getColl db n ++ docs := by
  cases docs with
  | nil => simp [insertMany]
  | cons d rest => simp [insertMany, getColl_setColl_self]

theorem collExists_ensureColl_self (db : Database) (n : String) :
    collExists (ensureColl db n) n = true := by
  unfold ensureColl
  by_cases h : collExists db n = true
  · simp [h]
  · have h' : collExists db n = false := by simpa using h
    rw [h']
    simp only [Bool.false_eq_true, if_false]
    simp [collExists, lookup_setColl_self]

/-! Characterizations of the copy and rename primitives. -/

theorem copy_collection_documents_spec (db : Database) (s t : String) :
    copy_collection_documents db s t = insertMany db t (getColl db s) := by
  simp [copy_collection_documents, copyLoop_spec]

theorem renameColl_success (db : Database) (src tgt : String)
    (hsrc : collExists db src = true) (htgt : collExists db tgt = false) :
    renameColl db src tgt
      = some (setColl (dropColl db src) tgt (getColl db src)) := by
  simp [renameColl, hsrc, htgt]

theorem renameColl_fail_src (db : Database) (src tgt : String)
    (hsrc : collExists db src = false) : renameColl db src tgt = none := by
  simp [renameColl, hsrc]

theorem renameColl_fail_tgt (db : Database) (src tgt : String)
    (htgt : collExists db tgt = true) : renameColl db src tgt = none := by
  unfold renameColl
  split
  · rfl
  · simp [htgt]

theorem rename_step_atomic (db : Database) (old new : String) (bf : Nat → Bool)
    (hcount : (getColl db old).length < 10000)
    (hold : collExists db old = true) (hnew : collExists db new = false) :
    rename_collection_step db true old new bf
      = ⟨RenamePath.atomic_rename,
         setColl (dropColl db old) new (getColl db old), none⟩ := by
  simp [rename_collection_step, hcount, renameColl_success db old new hold hnew]

theorem rename_step_fallback (db : Database) (old new : String) (bf : Nat → Bool)
    (hcount : (getColl db old).length < 10000)
    (hfail : renameColl db old new = none) :
    rename_collection_step db true old new bf
      = ⟨RenamePath.rename_fallback_copy,
         dropColl (insertMany db new (getColl db old)) old, none⟩ := by
  simp [rename_collection_step, hcount, hfail, copy_collection_documents_spec]

theorem rename_step_large (db : Database) (same_db : Bool) (old new : String)
    (bf : Nat → Bool) (hcount : 10000 ≤ (getColl db old).length) :
    rename_collection_step db same_db old new bf
      = ⟨RenamePath.large_migration,
         dropColl (migrate_collection_with_progress db old new bf).2 old,
         some (migrate_collection_with_progress db old new bf).1⟩ := by
  have h' : ¬ ((getColl db old).length < 10000) := by omega
  simp [rename_collection_step, h', hcount]

theorem rename_step_small_not_same (db : Database) (old new : String)
    (bf : Nat → Bool) (hcount : (getColl db old).length < 10000) :
    rename_collection_step db false old new bf
      = ⟨RenamePath.cross_db_copy,
         dropColl (insertMany db new (getColl db old)) old, none⟩ := by
  have h' : ¬ (10000 ≤ (getColl db old).length) := by omega
  simp [rename_collection_step, h', copy_collection_documents_spec]

/-! Lemmas about state plumbing. -/

theorem get_tenant_db_not_dedicated (mgr : DatabaseConnectionManager)
    (doc : OrgDoc) (h : doc.db_type.getD "shared" ≠ "dedicated") :
    get_tenant_db mgr doc
      = (TenantDb.shared (doc.db_name.getD "master_db"), mgr) := by
  simp [get_tenant_db, h]

theorem physicalDb_set_mgr (st : SystemState) (m : DatabaseConnectionManager)
    (t : TenantDb) : physicalDb { st with mgr := m } t = physicalDb st t := by
  cases t <;> rfl

theorem physicalDb_setPhysicalDb_self (st : SystemState) (t : TenantDb)
    (db : Database) : physicalDb (setPhysicalDb st t db) t = db := by
  cases t with
  | shared n => simp [physicalDb, setPhysicalDb, lookup_setAssoc_self]
  | dedicated c u n => simp [physicalDb, setPhysicalDb, lookup_setAssoc_self]

theorem setPhysicalDb_organizations (st : SystemState) (t : TenantDb)
    (db : Database) : (setPhysicalDb st t db).organizations = st.organizations := by
  cases t <;> rfl

theorem finalizeUpdate_rename_path (st : SystemState) (doc : OrgDoc)
    (path : Option RenamePath) (u : Updates) :
    (finalizeUpdate st doc path u).rename_path = path := by
  unfold finalizeUpdate
  split
  · split <;> rfl
  · rfl

theorem finalizeUpdate_sharedDbs (st : SystemState) (doc : OrgDoc)
    (path : Option RenamePath) (u : Updates) :
    (finalizeUpdate st doc path u).state.sharedDbs = st.sharedDbs := by
  unfold finalizeUpdate
  split
  · split <;> rfl
  · rfl

theorem finalizeUpdate_dedicatedDbs (st : SystemState) (doc : OrgDoc)
    (path : Option RenamePath) (u : Updates) :
    (finalizeUpdate st doc path u).state.dedicatedDbs = st.dedicatedDbs := by
  unfold finalizeUpdate
  split
  · split <;> rfl
  · rfl

theorem finalizeUpdate_conflict (st : SystemState) (doc : OrgDoc)
    (path : Option RenamePath) (u : Updates) (hne : u.nonempty = true)
    (hconf : directoryUpdateConflict st.organizations doc.id u = true) :
    finalizeUpdate st doc path u = ⟨some UpdateError.duplicate_name, st, path⟩ := by
  simp [finalizeUpdate, hne, hconf]

theorem finalizeUpdate_no_conflict_error (st : SystemState) (doc : OrgDoc)
    (path : Option RenamePath) (u : Updates)
    (hconf : directoryUpdateConflict st.organizations doc.id u = false) :
    (finalizeUpdate st doc path u).error = none := by
  unfold finalizeUpdate
  split
  · rw [hconf]
    simp
  · rfl

theorem findOrg_append_single (l : List OrgDoc) (r : OrgDoc) (name : String)
    (h : findOrg l name = none) (hr : (r.organization_name == name) = true) :
    findOrg (l ++ [r]) name = some r := by
  unfold findOrg at h ⊢
  induction l with
  | nil => simp [List.find?, hr]
  | cons x xs ih =>
    simp only [List.cons_append, List.find?] at h ⊢
    cases hx : (x.organization_name == name) with
    | true =>
      rw [hx] at h
      exact absurd h (by simp)
    | false =>
      rw [hx] at h
      have h' : List.find? (fun r => r.organization_name == name) xs = none := h
      exact ih h'

theorem eraseFirstOrg_append_single (l : List OrgDoc) (r : OrgDoc) (name : String)
    (h : findOrg l name = none) (hr : (r.organization_name == name) = true) :
    eraseFirstOrg (l ++ [r]) name = l := by
  unfold findOrg at h
  induction l with
  | nil => simp [eraseFirstOrg, hr]
  | cons x xs ih =>
    simp only [List.find?] at h
    cases hx : (x.organization_name == name) with
    | true =>
      rw [hx] at h
      exact absurd h (by simp)
    | false =>
      rw [hx] at h
      have h' : List.find? (fun r => r.organization_name == name) xs = none := h
      have hstep : eraseFirstOrg (x :: (xs ++ [r])) name
          = if (x.organization_name == name) = true then xs ++ [r]
            else x :: eraseFirstOrg (xs ++ [r]) name := rfl
      rw [List.cons_append, hstep, hx, if_neg (by simp)]
      exact congrArg (fun t => x :: t) (ih h')

theorem update_organization_rename_only (st : SystemState)
    (org_name newName : String) (doc : OrgDoc) (bf : Nat → Bool) (ping_ok : Bool)
    (hfind : findOrg st.organizations org_name = some doc)
    (hne : newName ≠ org_name) (hnonempty : newName ≠ "") :
    update_organization st org_name (some newName) none none none none bf ping_ok
      = finalizeUpdate
          (setPhysicalDb { st with mgr := (get_tenant_db st.mgr doc).2 }
            (get_tenant_db st.mgr doc).1 (renameOutcome st doc newName bf).db)
          doc (some (renameOutcome st doc newName bf).path)
          ⟨some newName, some ("org_" ++ slugify newName),
           none, none, none, none, none, none⟩ := by
  simp [update_organization, hfind, renameOutcome, physicalDb_set_mgr,
    truthy, hne, hnonempty]

theorem physicalDb_eq_of_dbs (st st2 : SystemState) (t : TenantDb)
    (hs : st.sharedDbs = st2.sharedDbs)
    (hd : st.dedicatedDbs = st2.dedicatedDbs) :
    physicalDb st t = physicalDb st2 t := by
  cases t <;> simp [physicalDb, hs, hd]

theorem rename_step_of_renameColl_some (db db2 : Database) (old new : String)
    (bf : Nat → Bool) (hcount : (getColl db old).length < 10000)
    (h : renameColl db old new = some db2) :
    rename_collection_step db true old new bf
      = ⟨RenamePath.atomic_rename, db2, none⟩ := by
  simp [rename_collection_step, hcount, h]

/-! The claims. -/

/-- C3 (amended): the batched-copy batch size is not a single engine-wide
constant — the tracked-migration path (`MigrationService.batch_size`)
buffers in batches of 1000 while the small-copy path
(`_copy_collection_documents`) uses a local batch size of 500. -/
theorem C3_batch_sizes_differ :
    MigrationService.batch_size = 1000
    ∧ OrganizationService.copy_batch_size = 500
    ∧ MigrationService.batch_size ≠ OrganizationService.copy_batch_size := by
  decide

/-- C3 counterexample: the two batch sizes of the source are not equal,
so the claimed single engine-wide constant does not exist in the code. -/
theorem C3_single_constant_counterexample :
    ¬ (MigrationService.batch_size = OrganizationService.copy_batch_size) := by
  decide

/-- C5: for every batched-copy migration over a source collection of `n`
documents, the returned statistics satisfy
`migrated_documents + failed_documents = n` (with `total_documents = n`),
and the job status derived per the spec is `completed` iff
`failed_documents = 0`. -/
theorem C5_migration_statistics (source_db : Database) (src tgt : String)
    (bf : Nat → Bool) :
    ((migrate_collection_with_progress source_db src tgt bf).1.migrated_documents
      + (migrate_collection_with_progress source_db src tgt bf).1.failed_documents
      = (getColl source_db src).length)
    ∧ (migrate_collection_with_progress source_db src tgt bf).1.total_documents
      = (getColl source_db src).length
    ∧ (jobStatus (migrate_collection_with_progress source_db src tgt bf).1
        = JobStatus.completed
       ↔ (migrate_collection_with_progress source_db src tgt bf).1.failed_documents
        = 0) := by
  refine ⟨?_, rfl, ?_⟩
  · have h := migrateLoop_conservation bf MigrationService.batch_size
      (getColl source_db src) [] 0
    simpa [migrate_collection_with_progress] using h
  · constructor
    · intro h
      by_contra hne
      simp [jobStatus, hne] at h
    · intro h
      simp [jobStatus, h]

/-- C6 (amended): `test_connection` never raises and returns `True`
exactly when the liveness ping succeeds, but it closes the short-lived
client only on the success path — on failure the `close()` standing
inside the `try` is never reached. -/
theorem C6_probe_result_and_close (ping_ok : Bool) :
    (test_connection ping_ok).returned = some ping_ok
    ∧ (test_connection ping_ok).close_called = ping_ok := by
  cases ping_ok <;> simp [test_connection]

/-- C6 counterexample: when the ping fails, `test_connection` returns
`False` without ever calling `close()` on the connection it opened, so
the connection is not discarded regardless of outcome as claimed. -/
theorem C6_probe_counterexample :
    (test_connection false).returned = some false
    ∧ (test_connection false).close_called = false := by
  decide

/-- C9: a record whose `db_type` is `"dedicated"` but whose connection
details lack a truthy `db_uri` or `db_name` raises no error:
`get_tenant_db` silently falls through and returns the database named by
the record's top-level `db_name` (default `"master_db"`) on the shared
default client, leaving the connection cache untouched. -/
theorem C9_dedicated_missing_details_falls_back
    (mgr : DatabaseConnectionManager) (doc : OrgDoc)
    (htype : doc.db_type = some "dedicated")
    (hmiss : truthy doc.connection_details_db_uri = false
      ∨ truthy doc.connection_details_db_name = false) :
    get_tenant_db mgr doc
      = (TenantDb.shared (doc.db_name.getD "master_db"), mgr) := by
  rcases hmiss with h | h <;> simp [get_tenant_db, htype, h]

/-- C9 witness: a concrete dedicated record with no connection URI
resolves to the shared client's database named by its `db_name`. -/
theorem C9_dedicated_missing_details_witness :
    (OrgDoc.mk 1 "a" "org_a" (some "dedicated") (some "d") none (some "d")
        "e" "h").db_type = some "dedicated"
    ∧ get_tenant_db ⟨[], 0⟩
        (OrgDoc.mk 1 "a" "org_a" (some "dedicated") (some "d") none (some "d")
          "e" "h")
      = (TenantDb.shared "d", ⟨[], 0⟩) := by
  refine ⟨rfl, ?_⟩
  have h := C9_dedicated_missing_details_falls_back ⟨[], 0⟩
    (OrgDoc.mk 1 "a" "org_a" (some "dedicated") (some "d") none (some "d")
      "e" "h") rfl (Or.inl rfl)
  simpa using h

/-- C7: resolving a dedicated record twice through the same manager
returns the identity-same cached client handle both times, leaves the
cache unchanged on the second call, the cache holds the
`f"{db_uri}_{db_name}"` key after the first call, and on a cache miss the
first call creates exactly one new client for that key. -/
theorem C7_resolve_caches_and_reuses (mgr : DatabaseConnectionManager)
    (doc : OrgDoc) (uri name : String)
    (htype : doc.db_type = some "dedicated")
    (huri : doc.connection_details_db_uri = some uri)
    (hname : doc.connection_details_db_name = some name)
    (hu : uri ≠ "") (hn : name ≠ "") :
    (get_tenant_db (get_tenant_db mgr doc).2 doc).1 = (get_tenant_db mgr doc).1
    ∧ (get_tenant_db (get_tenant_db mgr doc).2 doc).2 = (get_tenant_db mgr doc).2
    ∧ ((get_tenant_db mgr doc).2.tenant_clients.lookup
        (uri ++ "_" ++ name)).isSome = true
    ∧ (mgr.tenant_clients.lookup (uri ++ "_" ++ name) = none →
        (get_tenant_db mgr doc).2.tenant_clients
          = mgr.tenant_clients ++ [(uri ++ "_" ++ name, mgr.next_client_id, uri)]
        ∧ (get_tenant_db mgr doc).1
          = TenantDb.dedicated mgr.next_client_id uri name) := by
  cases hcase : mgr.tenant_clients.lookup (uri ++ "_" ++ name) with
  | some p =>
    obtain ⟨cid, curi⟩ := p
    constructor
    · simp [get_tenant_db, htype, huri, hname, truthy, hu, hn, hcase]
    constructor
    · simp [get_tenant_db, htype, huri, hname, truthy, hu, hn, hcase]
    constructor
    · simp [get_tenant_db, htype, huri, hname, truthy, hu, hn, hcase]
    · intro hnone
      exact absurd hnone (by simp)
  | none =>
    have hsecond : (mgr.tenant_clients
        ++ [(uri ++ "_" ++ name, mgr.next_client_id, uri)]).lookup
        (uri ++ "_" ++ name) = some (mgr.next_client_id, uri) :=
      lookup_append_single_of_none _ _ _ hcase
    constructor
    · simp [get_tenant_db, htype, huri, hname, truthy, hu, hn, hcase, hsecond]
    constructor
    · simp [get_tenant_db, htype, huri, hname, truthy, hu, hn, hcase, hsecond]
    constructor
    · simp [get_tenant_db, htype, huri, hname, truthy, hu, hn, hcase, hsecond]
    · intro _
      constructor
      · simp [get_tenant_db, htype, huri, hname, truthy, hu, hn, hcase]
      · simp [get_tenant_db, htype, huri, hname, truthy, hu, hn, hcase]

/-- C7 witness: a concrete dedicated record resolved twice through an
empty cache yields the same handle and the cache entry for its key. -/
theorem C7_resolve_caches_witness :
    (OrgDoc.mk 1 "a" "org_a" (some "dedicated") (some "d") (some "u") (some "d")
        "e" "h").db_type = some "dedicated"
    ∧ ("u" : String) ≠ ""
    ∧ ((get_tenant_db
          (get_tenant_db ⟨[], 0⟩
            (OrgDoc.mk 1 "a" "org_a" (some "dedicated") (some "d") (some "u")
              (some "d") "e" "h")).2
          (OrgDoc.mk 1 "a" "org_a" (some "dedicated") (some "d") (some "u")
            (some "d") "e" "h")).1
        = (get_tenant_db ⟨[], 0⟩
            (OrgDoc.mk 1 "a" "org_a" (some "dedicated") (some "d") (some "u")
              (some "d") "e" "h")).1) := by
  refine ⟨rfl, by decide, ?_⟩
  have h := C7_resolve_caches_and_reuses ⟨[], 0⟩
    (OrgDoc.mk 1 "a" "org_a" (some "dedicated") (some "d") (some "u") (some "d")
      "e" "h") "u" "d" rfl rfl rfl (by decide) (by decide)
  exact h.1

/-- C2 (amended): when the metadata insert of `create_organization` fails
with a duplicate-key conflict, the physical partition created earlier in
the call is dropped before the conflict is surfaced only in shared mode;
in dedicated mode the cleanup is skipped and the partition remains as an
orphan on the dedicated database. -/
theorem C2_conflict_cleanup_shared_only (st : SystemState)
    (org_name admin_email admin_password uri dname : String)
    (hclash : st.organizations.any
      (fun r => r.organization_name == org_name) = true)
    (hu : uri ≠ "") (hd : dname ≠ "") :
    ((create_organization st org_name admin_email admin_password
        none none true true).error
      = some (CreateError.duplicate "organization_name")
     ∧ collExists
        (((create_organization st org_name admin_email admin_password
            none none true true).state.sharedDbs.lookup "master_db").getD [])
        ("org_" ++ slugify org_name) = false)
    ∧ ((create_organization st org_name admin_email admin_password
        (some uri) (some dname) true true).error
      = some (CreateError.duplicate "organization_name")
     ∧ collExists
        (((create_organization st org_name admin_email admin_password
            (some uri) (some dname) true true).state.dedicatedDbs.lookup
          (uri, dname)).getD [])
        ("org_" ++ slugify org_name) = true) := by
  constructor
  · constructor
    · simp [create_organization, truthy, insertOrgMetadata, hclash]
    · simp [create_organization, truthy, insertOrgMetadata, hclash,
        lookup_setAssoc_self, collExists_dropColl_self]
  · constructor
    · simp [create_organization, truthy, hu, hd, insertOrgMetadata, hclash]
    · simp [create_organization, truthy, hu, hd, insertOrgMetadata, hclash,
        lookup_setAssoc_self, collExists_ensureColl_self]

/-- C2 witness: a concrete duplicate-name create in both modes — the
shared-mode partition is gone afterwards, the dedicated-mode partition
survives the conflict. -/
theorem C2_conflict_cleanup_witness :
    ((⟨[OrgDoc.mk 1 "a" "org_a" (some "shared") (some "master_db") none none
        "e@x" "h"], [("master_db", [])], [], ⟨[], 0⟩⟩ :
        SystemState).organizations.any
      (fun r => r.organization_name == "a") = true)
    ∧ collExists
        (((create_organization
            ⟨[OrgDoc.mk 1 "a" "org_a" (some "shared") (some "master_db") none
              none "e@x" "h"], [("master_db", [])], [], ⟨[], 0⟩⟩
            "a" "n@x" "pw" (some "u") (some "d") true true).state.dedicatedDbs.lookup
          ("u", "d")).getD []) ("org_" ++ slugify "a") = true := by
  refine ⟨by decide, ?_⟩
  have h := C2_conflict_cleanup_shared_only
    ⟨[OrgDoc.mk 1 "a" "org_a" (some "shared") (some "master_db") none none
      "e@x" "h"], [("master_db", [])], [], ⟨[], 0⟩⟩
    "a" "n@x" "pw" "u" "d" (by decide) (by decide) (by decide)
  exact h.2.2

/-- C2 counterexample: at a concrete duplicate-name create in dedicated
mode, the conflict is surfaced while the partition created earlier in the
call still exists on the dedicated database — contradicting the claim
that the partition is dropped in shared and dedicated mode alike. -/
theorem C2_dedicated_orphan_counterexample :
    (create_organization
        ⟨[OrgDoc.mk 1 "a" "org_a" (some "shared") (some "master_db") none none
          "e@x" "h"], [("master_db", [])], [], ⟨[], 0⟩⟩
        "a" "n@x" "pw" (some "u") (some "d") true true).error
      = some (CreateError.duplicate "organization_name")
    ∧ collExists
        (((create_organization
            ⟨[OrgDoc.mk 1 "a" "org_a" (some "shared") (some "master_db") none
              none "e@x" "h"], [("master_db", [])], [], ⟨[], 0⟩⟩
            "a" "n@x" "pw" (some "u") (some "d") true true).state.dedicatedDbs.lookup
          ("u", "d")).getD []) "org_a" = true := by
  decide

/-- C8: for every valid organization name, `organization_exists` is false
before `create_organization`, true after a successful create, and false
again after `delete_organization`. -/
theorem C8_exists_create_delete (st : SystemState) (name email pw : String)
    (hnot : organization_exists st name = false)
    (hok : (create_organization st name email pw none none true true).error
      = none) :
    organization_exists
      (create_organization st name email pw none none true true).state name = true
    ∧ (delete_organization
        (create_organization st name email pw none none true true).state name).1
      = true
    ∧ organization_exists
        (delete_organization
          (create_organization st name email pw none none true true).state
          name).2 name = false := by
  have hfind : findOrg st.organizations name = none := by
    by_contra h
    have : organization_exists st name = true := by
      unfold organization_exists
      cases hh : findOrg st.organizations name with
      | none => exact absurd hh h
      | some _ => rfl
    rw [this] at hnot
    exact absurd hnot (by simp)
  have hname : st.organizations.any (fun r => r.organization_name == name)
      = false := by
    by_contra h
    have h' : st.organizations.any (fun r => r.organization_name == name)
        = true := by simpa using h
    simp [create_organization, truthy, insertOrgMetadata, h'] at hok
  have hemail : st.organizations.any (fun r => r.admin_email == email)
      = false := by
    by_contra h
    have h' : st.organizations.any (fun r => r.admin_email == email)
        = true := by simpa using h
    simp [create_organization, truthy, insertOrgMetadata, hname, h'] at hok
  have hstate : (create_organization st name email pw none none true
      true).state.organizations
      = st.organizations
        ++ [OrgDoc.mk (freshId st.organizations) name ("org_" ++ slugify name)
            (some "shared") (some "master_db") none none email
            (hash_password pw)] := by
    simp [create_organization, truthy, insertOrgMetadata, hname, hemail]
  have hfound : findOrg (create_organization st name email pw none none true
      true).state.organizations name
      = some (OrgDoc.mk (freshId st.organizations) name
          ("org_" ++ slugify name) (some "shared") (some "master_db") none none
          email (hash_password pw)) := by
    rw [hstate]
    exact findOrg_append_single _ _ _ hfind (by simp)
  refine ⟨?_, ?_, ?_⟩
  · simp [organization_exists, hfound]
  · simp [delete_organization, hfound]
  · have herase : eraseFirstOrg (create_organization st name email pw none none
        true true).state.organizations name = st.organizations := by
      rw [hstate]
      exact eraseFirstOrg_append_single _ _ _ hfind (by simp)
    simp [delete_organization, hfound, organization_exists, herase, hfind]

/-- C8 witness: a concrete create/delete round-trip from an empty
directory. -/
theorem C8_exists_create_delete_witness :
    organization_exists ⟨[], [("master_db", [])], [], ⟨[], 0⟩⟩ "a" = false
    ∧ (create_organization ⟨[], [("master_db", [])], [], ⟨[], 0⟩⟩ "a" "e" "p"
        none none true true).error = none
    ∧ organization_exists
        (create_organization ⟨[], [("master_db", [])], [], ⟨[], 0⟩⟩ "a" "e" "p"
          none none true true).state "a" = true
    ∧ organization_exists
        (delete_organization
          (create_organization ⟨[], [("master_db", [])], [], ⟨[], 0⟩⟩ "a" "e"
            "p" none none true true).state "a").2 "a" = false := by
  refine ⟨by decide, by decide, ?_, ?_⟩
  · exact (C8_exists_create_delete ⟨[], [("master_db", [])], [], ⟨[], 0⟩⟩
      "a" "e" "p" (by decide) (by decide)).1
  · exact (C8_exists_create_delete ⟨[], [("master_db", [])], [], ⟨[], 0⟩⟩
      "a" "e" "p" (by decide) (by decide)).2.2

/-- C1 (amended): for every rename where the record's `db_type` is
`"shared"` — the code's own same-database test; a dedicated record is
routed to the copy path even though its current and target partitions
live in the same physical database — and the current partition holds
fewer than 10,000 documents, `update_organization` attempts the atomic
server-side rename; when the rename fails at the storage layer it falls
back to copy-then-drop, and no rename error reaches the caller. -/
theorem C1_small_shared_rename_attempts_atomic (st : SystemState)
    (org_name newName : String) (doc : OrgDoc) (bf : Nat → Bool)
    (hfind : findOrg st.organizations org_name = some doc)
    (hne : newName ≠ org_name) (hnonempty : newName ≠ "")
    (hshared : doc.db_type.getD "shared" = "shared")
    (hcount : (getColl (physicalDb st (get_tenant_db st.mgr doc).1)
      doc.collection_name).length < 10000)
    (hnoclash : st.organizations.any
      (fun r => (r.id != doc.id) && r.organization_name == newName) = false) :
    ((update_organization st org_name (some newName) none none none none bf
        true).rename_path = some RenamePath.atomic_rename
      ∨ (update_organization st org_name (some newName) none none none none bf
        true).rename_path = some RenamePath.rename_fallback_copy)
    ∧ (update_organization st org_name (some newName) none none none none bf
        true).error = none
    ∧ (renameColl (physicalDb st (get_tenant_db st.mgr doc).1)
        doc.collection_name ("org_" ++ slugify newName) = none →
       (update_organization st org_name (some newName) none none none none bf
         true).rename_path = some RenamePath.rename_fallback_copy) := by
  rw [update_organization_rename_only st org_name newName doc bf true hfind
    hne hnonempty]
  have hsame : (doc.db_type.getD "shared" == "shared") = true := by
    simp [hshared]
  have hconf : ∀ st2 : SystemState, st2.organizations = st.organizations →
      directoryUpdateConflict st2.organizations doc.id
        ⟨some newName, some ("org_" ++ slugify newName),
         none, none, none, none, none, none⟩ = false := by
    intro st2 h2
    rw [h2]
    simp [directoryUpdateConflict, hnoclash]
  cases hren : renameColl (physicalDb st (get_tenant_db st.mgr doc).1)
      doc.collection_name ("org_" ++ slugify newName) with
  | some db2 =>
    have hstep : renameOutcome st doc newName bf
        = ⟨RenamePath.atomic_rename, db2, none⟩ := by
      unfold renameOutcome
      rw [hsame]
      exact rename_step_of_renameColl_some _ _ _ _ bf hcount hren
    rw [hstep]
    refine ⟨Or.inl (finalizeUpdate_rename_path _ _ _ _), ?_, ?_⟩
    · exact finalizeUpdate_no_conflict_error _ _ _ _
        (hconf _ (setPhysicalDb_organizations _ _ _))
    · intro hc
      exact absurd hc (Option.some_ne_none db2)
  | none =>
    have hstep : renameOutcome st doc newName bf
        = ⟨RenamePath.rename_fallback_copy,
           dropColl (insertMany (physicalDb st (get_tenant_db st.mgr doc).1)
             ("org_" ++ slugify newName)
             (getColl (physicalDb st (get_tenant_db st.mgr doc).1)
               doc.collection_name)) doc.collection_name, none⟩ := by
      unfold renameOutcome
      rw [hsame]
      exact rename_step_fallback _ _ _ bf hcount hren
    rw [hstep]
    refine ⟨Or.inr (finalizeUpdate_rename_path _ _ _ _), ?_, ?_⟩
    · exact finalizeUpdate_no_conflict_error _ _ _ _
        (hconf _ (setPhysicalDb_organizations _ _ _))
    · intro _
      exact finalizeUpdate_rename_path _ _ _ _

/-- C1 witness: a concrete shared-mode rename of a 3-document partition
attempts the atomic rename and raises no error. -/
theorem C1_small_shared_rename_witness :
    findOrg [OrgDoc.mk 1 "a" "org_a" (some "shared") (some "master_db") none
        none "e" "h"] "a"
      = some (OrgDoc.mk 1 "a" "org_a" (some "shared") (some "master_db") none
        none "e" "h")
    ∧ ((update_organization
        ⟨[OrgDoc.mk 1 "a" "org_a" (some "shared") (some "master_db") none none
          "e" "h"], [("master_db", [("org_a", [1, 2, 3])])], [], ⟨[], 0⟩⟩
        "a" (some "b") none none none none (fun _ => false)
        true).rename_path = some RenamePath.atomic_rename
      ∨ (update_organization
        ⟨[OrgDoc.mk 1 "a" "org_a" (some "shared") (some "master_db") none none
          "e" "h"], [("master_db", [("org_a", [1, 2, 3])])], [], ⟨[], 0⟩⟩
        "a" (some "b") none none none none (fun _ => false)
        true).rename_path = some RenamePath.rename_fallback_copy) := by
  refine ⟨by decide, ?_⟩
  exact (C1_small_shared_rename_attempts_atomic
    ⟨[OrgDoc.mk 1 "a" "org_a" (some "shared") (some "master_db") none none
      "e" "h"], [("master_db", [("org_a", [1, 2, 3])])], [], ⟨[], 0⟩⟩
    "a" "b" (OrgDoc.mk 1 "a" "org_a" (some "shared") (some "master_db") none
      none "e" "h") (fun _ => false)
    (by decide) (by decide) (by decide) (by decide) (by decide) (by decide)).1

/-- C1 counterexample: a dedicated record whose current and target
partitions live in the same physical database and hold 3 documents is
routed to the plain copy path — no atomic rename is attempted, because
the code's same-database test is `db_type == "shared"`, not a comparison
of physical locations. -/
theorem C1_same_db_test_counterexample :
    (update_organization
        ⟨[OrgDoc.mk 1 "a" "org_a" (some "dedicated") (some "ddb") (some "u")
          (some "ddb") "e" "h"], [],
         [(("u", "ddb"), [("org_a", [1, 2, 3])])], ⟨[], 0⟩⟩
        "a" (some "b") none none none none (fun _ => false) true).rename_path
      = some RenamePath.cross_db_copy
    ∧ ¬ ((update_organization
        ⟨[OrgDoc.mk 1 "a" "org_a" (some "dedicated") (some "ddb") (some "u")
          (some "ddb") "e" "h"], [],
         [(("u", "ddb"), [("org_a", [1, 2, 3])])], ⟨[], 0⟩⟩
        "a" (some "b") none none none none (fun _ => false) true).rename_path
        = some RenamePath.atomic_rename
      ∨ (update_organization
        ⟨[OrgDoc.mk 1 "a" "org_a" (some "dedicated") (some "ddb") (some "u")
          (some "ddb") "e" "h"], [],
         [(("u", "ddb"), [("org_a", [1, 2, 3])])], ⟨[], 0⟩⟩
        "a" (some "b") none none none none (fun _ => false) true).rename_path
        = some RenamePath.rename_fallback_copy) := by
  decide

/-- C4: for every rename routed to the batched-migration path (10,000 or
more documents in the current partition), the source partition is dropped
unconditionally — the conclusion holds for every batch-failure pattern
`bf`, including those that make the migration report
`failed_documents > 0`. -/
theorem C4_large_migration_drops_source (st : SystemState)
    (org_name newName : String) (doc : OrgDoc) (bf : Nat → Bool)
    (hfind : findOrg st.organizations org_name = some doc)
    (hne : newName ≠ org_name) (hnonempty : newName ≠ "")
    (hcount : 10000 ≤ (getColl (physicalDb st (get_tenant_db st.mgr doc).1)
      doc.collection_name).length) :
    (update_organization st org_name (some newName) none none none none bf
      true).rename_path = some RenamePath.large_migration
    ∧ collExists
        (physicalDb
          (update_organization st org_name (some newName) none none none none
            bf true).state (get_tenant_db st.mgr doc).1)
        doc.collection_name = false := by
  rw [update_organization_rename_only st org_name newName doc bf true hfind
    hne hnonempty]
  have hstep : renameOutcome st doc newName bf
      = ⟨RenamePath.large_migration,
         dropColl (migrate_collection_with_progress
           (physicalDb st (get_tenant_db st.mgr doc).1) doc.collection_name
           ("org_" ++ slugify newName) bf).2 doc.collection_name,
         some (migrate_collection_with_progress
           (physicalDb st (get_tenant_db st.mgr doc).1) doc.collection_name
           ("org_" ++ slugify newName) bf).1⟩ := by
    unfold renameOutcome
    exact rename_step_large _ _ _ _ bf hcount
  rw [hstep]
  refine ⟨finalizeUpdate_rename_path _ _ _ _, ?_⟩
  rw [physicalDb_eq_of_dbs _ _ _ (finalizeUpdate_sharedDbs _ _ _ _)
    (finalizeUpdate_dedicatedDbs _ _ _ _)]
  rw [physicalDb_setPhysicalDb_self]
  exact collExists_dropColl_self _ _

/-- C4 witness: a concrete 10,000-document shared partition, renamed with
every batch insert failing, still ends with the source partition
dropped. -/
theorem C4_large_migration_drops_source_witness :
    10000 ≤ (getColl (physicalDb
      ⟨[OrgDoc.mk 1 "a" "org_a" (some "shared") (some "master_db") none none
        "e" "h"], [("master_db", [("org_a", List.replicate 10000 0)])], [],
       ⟨[], 0⟩⟩
      (get_tenant_db ⟨[], 0⟩ (OrgDoc.mk 1 "a" "org_a" (some "shared")
        (some "master_db") none none "e" "h")).1) "org_a").length
    ∧ collExists
        (physicalDb
          (update_organization
            ⟨[OrgDoc.mk 1 "a" "org_a" (some "shared") (some "master_db") none
              none "e" "h"], [("master_db", [("org_a", List.replicate 10000 0)])],
             [], ⟨[], 0⟩⟩
            "a" (some "b") none none none none (fun _ => true) true).state
          (get_tenant_db ⟨[], 0⟩ (OrgDoc.mk 1 "a" "org_a" (some "shared")
            (some "master_db") none none "e" "h")).1) "org_a" = false := by
  have hcount : 10000 ≤ (getColl (physicalDb
      ⟨[OrgDoc.mk 1 "a" "org_a" (some "shared") (some "master_db") none none
        "e" "h"], [("master_db", [("org_a", List.replicate 10000 0)])], [],
       ⟨[], 0⟩⟩
      (get_tenant_db ⟨[], 0⟩ (OrgDoc.mk 1 "a" "org_a" (some "shared")
        (some "master_db") none none "e" "h")).1) "org_a").length := by
    have h : physicalDb
        ⟨[OrgDoc.mk 1 "a" "org_a" (some "shared") (some "master_db") none none
          "e" "h"], [("master_db", [("org_a", List.replicate 10000 0)])], [],
         ⟨[], 0⟩⟩
        (get_tenant_db ⟨[], 0⟩ (OrgDoc.mk 1 "a" "org_a" (some "shared")
          (some "master_db") none none "e" "h")).1
        = [("org_a", List.replicate 10000 0)] := by rfl
    have h2 : getColl [("org_a", List.replicate 10000 (0 : Doc))] "org_a"
        = List.replicate 10000 (0 : Doc) := by rfl
    rw [h, h2, List.length_replicate]
  refine ⟨hcount, ?_⟩
  exact (C4_large_migration_drops_source
    ⟨[OrgDoc.mk 1 "a" "org_a" (some "shared") (some "master_db") none none
      "e" "h"], [("master_db", [("org_a", List.replicate 10000 0)])], [],
     ⟨[], 0⟩⟩
    "a" "b" (OrgDoc.mk 1 "a" "org_a" (some "shared") (some "master_db") none
      none "e" "h") (fun _ => true)
    (by decide) (by decide) (by decide) hcount).2

/-- C10: the physical relocation precedes the metadata write in
`update_organization` — when the final `update_one` hits a duplicate-key
conflict, the call raises while the documents already reside only in the
new collection (here shown on the atomic-rename branch of a shared-mode
record with a clean target) and the directory still carries the record
unchanged, old name and collection name included. -/
theorem C10_relocation_precedes_metadata_write (st : SystemState)
    (org_name newName : String) (doc : OrgDoc) (bf : Nat → Bool)
    (hfind : findOrg st.organizations org_name = some doc)
    (hne : newName ≠ org_name) (hnonempty : newName ≠ "")
    (hshared : doc.db_type.getD "shared" = "shared")
    (hcount : (getColl (physicalDb st (get_tenant_db st.mgr doc).1)
      doc.collection_name).length < 10000)
    (hold : collExists (physicalDb st (get_tenant_db st.mgr doc).1)
      doc.collection_name = true)
    (hnew : collExists (physicalDb st (get_tenant_db st.mgr doc).1)
      ("org_" ++ slugify newName) = false)
    (hclash : st.organizations.any
      (fun r => (r.id != doc.id) && r.organization_name == newName) = true) :
    (update_organization st org_name (some newName) none none none none bf
      true).error = some UpdateError.duplicate_name
    ∧ (update_organization st org_name (some newName) none none none none bf
        true).state.organizations = st.organizations
    ∧ getColl
        (physicalDb (update_organization st org_name (some newName) none none
          none none bf true).state (get_tenant_db st.mgr doc).1)
        ("org_" ++ slugify newName)
      = getColl (physicalDb st (get_tenant_db st.mgr doc).1)
          doc.collection_name
    ∧ collExists
        (physicalDb (update_organization st org_name (some newName) none none
          none none bf true).state (get_tenant_db st.mgr doc).1)
        doc.collection_name = false := by
  rw [update_organization_rename_only st org_name newName doc bf true hfind
    hne hnonempty]
  have hsame : (doc.db_type.getD "shared" == "shared") = true := by
    simp [hshared]
  have hstep : renameOutcome st doc newName bf
      = ⟨RenamePath.atomic_rename,
         setColl (dropColl (physicalDb st (get_tenant_db st.mgr doc).1)
           doc.collection_name) ("org_" ++ slugify newName)
           (getColl (physicalDb st (get_tenant_db st.mgr doc).1)
             doc.collection_name), none⟩ := by
    unfold renameOutcome
    rw [hsame]
    exact rename_step_atomic _ _ _ bf hcount hold hnew
  rw [hstep]
  have hne_coll : doc.collection_name ≠ "org_" ++ slugify newName := by
    intro h
    rw [h, hnew] at hold
    exact Bool.noConfusion hold
  have hconf : directoryUpdateConflict
      (setPhysicalDb { st with mgr := (get_tenant_db st.mgr doc).2 }
        (get_tenant_db st.mgr doc).1
        (setColl (dropColl (physicalDb st (get_tenant_db st.mgr doc).1)
          doc.collection_name) ("org_" ++ slugify newName)
          (getColl (physicalDb st (get_tenant_db st.mgr doc).1)
            doc.collection_name))).organizations doc.id
      ⟨some newName, some ("org_" ++ slugify newName),
       none, none, none, none, none, none⟩ = true := by
    rw [setPhysicalDb_organizations]
    simp [directoryUpdateConflict, hclash]
  have hnonemptyU : Updates.nonempty
      ⟨some newName, some ("org_" ++ slugify newName),
       none, none, none, none, none, none⟩ = true := by
    simp [Updates.nonempty]
  rw [finalizeUpdate_conflict _ _ _ _ hnonemptyU hconf]
  refine ⟨rfl, ?_, ?_, ?_⟩
  · rw [setPhysicalDb_organizations]
  · rw [physicalDb_setPhysicalDb_self]
    exact getColl_setColl_self _ _ _
  · rw [physicalDb_setPhysicalDb_self]
    simp [collExists, lookup_setColl_ne _ _ _ _ hne_coll, lookup_dropColl_self]

/-- C10 witness: renaming "a" to the already-taken name "b" raises the
duplicate conflict while the documents have already moved to `org_b` and
the directory still lists the record under "a"/`org_a`. -/
theorem C10_relocation_precedes_metadata_witness :
    ((⟨[OrgDoc.mk 1 "a" "org_a" (some "shared") (some "master_db") none none
        "e1" "h1",
       OrgDoc.mk 2 "b" "org_b" (some "shared") (some "master_db") none none
        "e2" "h2"], [("master_db", [("org_a", [1, 2, 3])])], [], ⟨[], 0⟩⟩ :
        SystemState).organizations.any
      (fun r => (r.id != 1) && r.organization_name == "b") = true)
    ∧ (update_organization
        ⟨[OrgDoc.mk 1 "a" "org_a" (some "shared") (some "master_db") none none
          "e1" "h1",
         OrgDoc.mk 2 "b" "org_b" (some "shared") (some "master_db") none none
          "e2" "h2"], [("master_db", [("org_a", [1, 2, 3])])], [], ⟨[], 0⟩⟩
        "a" (some "b") none none none none (fun _ => false) true).error
      = some UpdateError.duplicate_name
    ∧ (update_organization
        ⟨[OrgDoc.mk 1 "a" "org_a" (some "shared") (some "master_db") none none
          "e1" "h1",
         OrgDoc.mk 2 "b" "org_b" (some "shared") (some "master_db") none none
          "e2" "h2"], [("master_db", [("org_a", [1, 2, 3])])], [], ⟨[], 0⟩⟩
        "a" (some "b") none none none none (fun _ => false)
        true).state.organizations
      = [OrgDoc.mk 1 "a" "org_a" (some "shared") (some "master_db") none none
          "e1" "h1",
         OrgDoc.mk 2 "b" "org_b" (some "shared") (some "master_db") none none
          "e2" "h2"] := by
  have h := C10_relocation_precedes_metadata_write
    ⟨[OrgDoc.mk 1 "a" "org_a" (some "shared") (some "master_db") none none
      "e1" "h1",
     OrgDoc.mk 2 "b" "org_b" (some "shared") (some "master_db") none none
      "e2" "h2"], [("master_db", [("org_a", [1, 2, 3])])], [], ⟨[], 0⟩⟩
    "a" "b" (OrgDoc.mk 1 "a" "org_a" (some "shared") (some "master_db") none
      none "e1" "h1") (fun _ => false)
    (by decide) (by decide) (by decide) (by decide) (by decide) (by decide)
    (by decide) (by decide)
  exact ⟨by decide, h.1, h.2.1⟩
